import Mathlib

/-!
# Verification of the wizdiff change-detection core

A shallow embedding of the wizdiff repository (patch-discovery client,
manifest parser, inventory store and diff engine) together with theorems
settling the specification claims.  Bytes are modelled as `Nat` values,
byte buffers as `List Nat`, machine integers as `Nat`/`Int` with explicit
wrapping where the source wraps, fallible Python code as `Except PyErr`.
Python-level semantics (negative-index slicing, string `find` returning
`-1`, truthiness, tuple destructuring arity, dataclass constructor arity)
are embedded explicitly where the source relies on them.
-/

namespace Wizdiff

/-- The exception kinds that the embedded code can raise.  Dynamic parts of
the Python f-string messages are dropped; only the static text is kept. -/
inductive PyErr where
  | valueError (msg : String)
  | typeError (msg : String)
  | runtimeError (msg : String)
  | structError
  | unicodeDecodeError
  | integrityError
  | keyError
  deriving Repr, DecidableEq

/-- Normalise a Python slice endpoint `i` against a buffer of length `n`:
negative indices count from the end, and endpoints are clamped to
`[0, n]`.  This is the semantics of `buf[i:j]` for `bytes`. -/
def pyBound (n : Nat) (i : Int) : Nat :=
  if i < 0 then (max (i + n) 0).toNat else min i.toNat n

/-- Python slice `data[s:e]` on a byte string (step 1). -/
def pySlice (data : List Nat) (s e : Int) : List Nat :=
  let lo := pyBound data.length s
  let hi := pyBound data.length e
  (data.drop lo).take (hi - lo)

/-- Python `bytes.find(pat)`: index of the first occurrence of `pat`, or
`-1` when absent. -/
def pyFind (data pat : List Nat) : Int :=
  match (List.range (data.length + 1)).find? (fun i => pat.isPrefixOf (data.drop i)) with
  | some i => (i : Int)
  | none => -1

/-- Python `bytes.rfind(pat)`: index of the last occurrence of `pat`, or
`-1` when absent. -/
def pyRFind (data pat : List Nat) : Int :=
  match ((List.range (data.length + 1)).reverse).find? (fun i => pat.isPrefixOf (data.drop i)) with
  | some i => (i : Int)
  | none => -1

/-- Is `b` a UTF-8 continuation byte (`0x80 ≤ b ≤ 0xBF`)? -/
def utf8Cont (b : Nat) : Bool :=
  128 ≤ b && b ≤ 191

/-- Strict UTF-8 decoding, one byte at a time.  `acc` holds the decoded
code points, `pending` an unfinished sequence as
`(code point so far, continuation bytes still needed, allowed range of
the next byte)`.  The per-lead-byte ranges reject overlong encodings,
surrogates and values above `0x10FFFF`, exactly as Python's
`bytes.decode("utf-8")` does (`none` models `UnicodeDecodeError`). -/
def utf8Run : List Nat → List Nat → Option (Nat × Nat × Nat × Nat) → Option (List Nat)
  | [], acc, none => some acc
  | [], _, some _ => none
  | b :: rest, acc, none =>
    if b < 0x80 then utf8Run rest (acc ++ [b]) none
    else if b < 0xC2 then none
    else if b ≤ 0xDF then utf8Run rest acc (some (b - 0xC0, 1, 0x80, 0xBF))
    else if b = 0xE0 then utf8Run rest acc (some (0, 2, 0xA0, 0xBF))
    else if b = 0xED then utf8Run rest acc (some (0xD, 2, 0x80, 0x9F))
    else if b ≤ 0xEF then utf8Run rest acc (some (b - 0xE0, 2, 0x80, 0xBF))
    else if b = 0xF0 then utf8Run rest acc (some (0, 3, 0x90, 0xBF))
    else if b = 0xF4 then utf8Run rest acc (some (4, 3, 0x80, 0x8F))
    else if b ≤ 0xF3 then utf8Run rest acc (some (b - 0xF0, 3, 0x80, 0xBF))
    else none
  | b :: rest, acc, some (cp, need, lo, hi) =>
    if lo ≤ b ∧ b ≤ hi then
      let cp := cp * 0x40 + (b - 0x80)
      if need = 1 then utf8Run rest (acc ++ [cp]) none
      else utf8Run rest acc (some (cp, need - 1, 0x80, 0xBF))
    else none

/-- Decode a byte list as UTF-8 into a `String` (`none` models
`UnicodeDecodeError`). -/
def utf8Decode (bs : List Nat) : Option String :=
  (utf8Run bs [] none).map (fun cps => String.mk (cps.map Char.ofNat))

/-- The ASCII bytes of `"http"`. -/
def httpBytes : List Nat := [104, 116, 116, 112]

/-- Little-endian unsigned 16-bit value from exactly two bytes, as
`struct.unpack("<H", b)`; any other byte count is a `struct.error`. -/
def unpackU16 (bs : List Nat) : Except PyErr Nat :=
  match bs with
  | [a, b] => .ok (a + 256 * b)
  | _ => .error .structError

/-- `_read_url(start)` from `utils.get_patch_urls` / `WebDriver.get_patch_urls`:
read a `u16` little-endian length at `data[start:start+2]` and decode
`data[start+2 : start+2+length]` as UTF-8. -/
def readUrlAt (data : List Nat) (start : Int) : Except PyErr String := do
  let strLenData := pySlice data start (start + 2)
  let strLen ← unpackU16 strLenData
  let strData := pySlice data (start + 2) (start + 2 + strLen)
  match utf8Decode strData with
  | some s => .ok s
  | none => .error .unicodeDecodeError

/-- The URL-extraction step of `get_patch_urls` on the second response
frame `data`: locate the first and last occurrence of `b"http"` via
`find`/`rfind` (which yield `-1` when absent), subtract 2 for the length
prefix, and read both URLs. -/
def getPatchUrlsExtract (data : List Nat) : Except PyErr (String × String) := do
  let fileListUrlStart := pyFind data httpBytes - 2
  let baseUrlStart := pyRFind data httpBytes - 2
  let u1 ← readUrlAt data fileListUrlStart
  let u2 ← readUrlAt data baseUrlStart
  .ok (u1, u2)

/-! ## ManifestParser (`dml_parser.py`) -/

/-- `TypedBytesReader`: a byte buffer plus a cursor.  The offset is an
`Int` because `consume_data` can pass a negative size to `read_data`
(when a structure's `included_data_size` is below 4), which moves the
Python offset backwards. -/
structure TypedBytesReader where
  data : List Nat
  offset : Int
  deriving Repr, DecidableEq

namespace TypedBytesReader

/-- `TypedBytesReader.size`. -/
def size (r : TypedBytesReader) : Nat := r.data.length

/-- `TypedBytesReader.is_eof`. -/
def isEof (r : TypedBytesReader) : Bool := r.offset = (r.size : Int)

/-- `TypedBytesReader.read_data`: raise when the read would pass the end
of the buffer, otherwise return the slice and advance the offset by
exactly `sz`. -/
def readData (r : TypedBytesReader) (sz : Int) :
    Except PyErr (List Nat × TypedBytesReader) :=
  let start := r.offset
  let stop := r.offset + sz
  if stop > (r.data.length : Int) then
    .error (.runtimeError "Read more data than in buffer")
  else
    .ok (pySlice r.data start stop, { r with offset := stop })

end TypedBytesReader

/-- Little-endian value of a byte list. -/
def leNat (bs : List Nat) : Nat :=
  bs.foldr (fun b acc => b + 256 * acc) 0

/-- Two's-complement reading of an unsigned `numBytes`-byte value, as
`struct.unpack` does for the signed formats. -/
def toSigned (numBytes : Nat) (n : Nat) : Int :=
  if n < 2 ^ (8 * numBytes - 1) then (n : Int) else (n : Int) - 2 ^ (8 * numBytes)

/-- `read_typed` for an unsigned little-endian field of `numBytes` bytes:
`read_data` then `struct.unpack`, which demands exactly `numBytes`
bytes. -/
def readUnsigned (r : TypedBytesReader) (numBytes : Nat) :
    Except PyErr (Nat × TypedBytesReader) := do
  let (bs, r) ← r.readData numBytes
  if bs.length = numBytes then .ok (leNat bs, r) else .error .structError

/-- `read_typed("unsigned char")`. -/
def readU8 (r : TypedBytesReader) : Except PyErr (Nat × TypedBytesReader) :=
  readUnsigned r 1

/-- `read_typed("unsigned short")`. -/
def readU16 (r : TypedBytesReader) : Except PyErr (Nat × TypedBytesReader) :=
  readUnsigned r 2

/-- `read_typed("unsigned int")`. -/
def readU32 (r : TypedBytesReader) : Except PyErr (Nat × TypedBytesReader) :=
  readUnsigned r 4

/-- `read_typed` for a signed little-endian field. -/
def readSigned (r : TypedBytesReader) (numBytes : Nat) :
    Except PyErr (Int × TypedBytesReader) := do
  let (n, r) ← readUnsigned r numBytes
  .ok (toSigned numBytes n, r)

/-- `read_str` with the default utf-8 encoding: a `u16` length prefix
followed by that many bytes of UTF-8. -/
def readStr (r : TypedBytesReader) : Except PyErr (String × TypedBytesReader) := do
  let (sz, r) ← readU16 r
  let (bs, r) ← r.readData sz
  match utf8Decode bs with
  | some s => .ok (s, r)
  | none => .error .unicodeDecodeError

/-- UTF-16-LE decoding for `read_str("utf-16-le")`: pair bytes into code
units, combine surrogate pairs, reject odd lengths and lone
surrogates as Python's decoder does. -/
def utf16leUnits : List Nat → Option (List Nat)
  | [] => some []
  | a :: b :: rest => (utf16leUnits rest).map ((a + 256 * b) :: ·)
  | [_] => none

/-- Combine UTF-16 code units into code points, one unit at a time;
`pendingHigh` carries a high surrogate awaiting its partner.  Lone
surrogates are rejected as Python's decoder does. -/
def utf16Run : List Nat → List Nat → Option Nat → Option (List Nat)
  | [], acc, none => some acc
  | [], _, some _ => none
  | u :: rest, acc, none =>
    if u < 0xD800 ∨ 0xE000 ≤ u then utf16Run rest (acc ++ [u]) none
    else if u ≤ 0xDBFF then utf16Run rest acc (some u)
    else none
  | lo :: rest, acc, some hi =>
    if 0xDC00 ≤ lo ∧ lo ≤ 0xDFFF then
      utf16Run rest (acc ++ [0x10000 + (hi - 0xD800) * 0x400 + (lo - 0xDC00)]) none
    else none

/-- `bytes.decode("utf-16-le")`. -/
def utf16leDecode (bs : List Nat) : Option String := do
  let units ← utf16leUnits bs
  let cps ← utf16Run units [] none
  some (String.mk (cps.map Char.ofNat))

/-- `read_str("utf-16-le")`. -/
def readStrUtf16 (r : TypedBytesReader) : Except PyErr (String × TypedBytesReader) := do
  let (sz, r) ← readU16 r
  let (bs, r) ← r.readData sz
  match utf16leDecode bs with
  | some s => .ok (s, r)
  | none => .error .unicodeDecodeError

/-- Python `dict[k] = v`: replace the value in place if the key exists,
otherwise append (insertion order preserved). -/
def assocSet {α : Type} (l : List (String × α)) (k : String) (v : α) :
    List (String × α) :=
  if l.any (·.1 = k) then l.map (fun p => if p.1 = k then (k, v) else p)
  else l ++ [(k, v)]

/-- `wiz_type_conversion[i]` (`none` models `KeyError`).  The caller
indexes with `type_index - 1` computed in `Int`. -/
def wizTypeConversion (i : Int) : Option String :=
  if i = 0 then some "long long"
  else if i = 1 then some "int"
  else if i = 2 then some "unsigned int"
  else if i = 3 then some "float"
  else if i = 4 then some "signed char"
  else if i = 5 then some "unsigned char"
  else if i = 6 then some "unsigned short"
  else if i = 7 then some "double"
  else if i = 8 then some "string"
  else if i = 9 then some "wstring"
  else if i = 10 then some "short"
  else none

/-- A decoded manifest field value.  Floating-point fields (`float`,
`double`) are kept as their raw little-endian bytes: the diff engine
never inspects them, and this keeps the embedding exact without a
floating-point model. -/
inductive DmlValue where
  | int (i : Int)
  | str (s : String)
  | raw (bs : List Nat)
  deriving Repr, DecidableEq

/-- One parsed record: field name to value, in template order. -/
abbrev DmlRecord := List (String × DmlValue)

/-- `read_typed` dispatched on the numeric type names of
`type_format_dict` (`string`/`wstring` are handled by the caller). -/
def readTypedValue (r : TypedBytesReader) (typeName : String) :
    Except PyErr (DmlValue × TypedBytesReader) :=
  if typeName = "long long" then do
    let (v, r) ← readSigned r 8; .ok (.int v, r)
  else if typeName = "int" then do
    let (v, r) ← readSigned r 4; .ok (.int v, r)
  else if typeName = "unsigned int" then do
    let (v, r) ← readUnsigned r 4; .ok (.int v, r)
  else if typeName = "float" then do
    let (bs, r) ← r.readData 4
    if bs.length = 4 then .ok (.raw bs, r) else .error .structError
  else if typeName = "signed char" then do
    let (v, r) ← readSigned r 1; .ok (.int v, r)
  else if typeName = "unsigned char" then do
    let (v, r) ← readUnsigned r 1; .ok (.int v, r)
  else if typeName = "unsigned short" then do
    let (v, r) ← readUnsigned r 2; .ok (.int v, r)
  else if typeName = "double" then do
    let (bs, r) ← r.readData 8
    if bs.length = 8 then .ok (.raw bs, r) else .error .structError
  else if typeName = "short" then do
    let (v, r) ← readSigned r 2; .ok (.int v, r)
  else
    .error .keyError

/-- The loop body of `parse_record_template`.  `fuel` bounds the number
of iterations; every real iteration consumes at least four bytes, so the
wrapper's `data.length + 1` can never run out on an execution that the
Python loop finishes. -/
def parseRecordTemplateLoop (fuel : Nat) (r : TypedBytesReader)
    (tmpl : List (String × Nat)) :
    Except PyErr (String × List (String × Nat)) :=
  match fuel with
  | 0 => .error (.runtimeError "fuel exhausted")
  | fuel + 1 =>
    if r.isEof then .error (.runtimeError "No target table")
    else do
      let (name, r) ← readStr r
      if name = "_TargetTable" then do
        let r : TypedBytesReader := { r with offset := r.offset + 2 }
        let (recordTemplateName, _) ← readStr r
        .ok (recordTemplateName, tmpl)
      else do
        let (typeIndex, r) ← readU8 r
        let (fortyCheck, r) ← readU8 r
        if fortyCheck ≠ 40 then
          .error (.runtimeError "Forty check was not forty")
        else
          parseRecordTemplateLoop fuel r (assocSet tmpl name typeIndex)

/-- `parse_record_template`. -/
def parseRecordTemplate (r : TypedBytesReader) :
    Except PyErr (String × List (String × Nat)) :=
  parseRecordTemplateLoop (r.data.length + 1) r []

/-- The loop of `parse_record`: one value per template field, in
template order. -/
def parseRecordLoop (r : TypedBytesReader) (fields : List (String × Nat))
    (record : DmlRecord) : Except PyErr DmlRecord :=
  match fields with
  | [] => .ok record
  | (name, typeIndex) :: rest => do
    let formatType ←
      match wizTypeConversion ((typeIndex : Int) - 1) with
      | some t => Except.ok t
      | none => Except.error PyErr.keyError
    let (value, r) ←
      if formatType = "wstring" then do
        let (s, r) ← readStrUtf16 r; Except.ok (DmlValue.str s, r)
      else if formatType = "string" then do
        let (s, r) ← readStr r; Except.ok (DmlValue.str s, r)
      else
        readTypedValue r formatType
    parseRecordLoop r rest (assocSet record name value)

/-- `parse_record`. -/
def parseRecord (r : TypedBytesReader) (tmpl : List (String × Nat)) :
    Except PyErr DmlRecord :=
  parseRecordLoop r tmpl []

/-- `defaultdict(list)` append: extend the list at the key, creating it
on first use. -/
def recordsAppend (rs : List (String × List DmlRecord)) (k : String)
    (v : DmlRecord) : List (String × List DmlRecord) :=
  if rs.any (·.1 = k) then
    rs.map (fun p => if p.1 = k then (p.1, p.2 ++ [v]) else p)
  else rs ++ [(k, [v])]

/-- One structure of `consume_data` (lines 160–174): marker byte (must
be 2), structure type byte, `u16` included size, then a payload of
`included_data_size - 4` bytes wrapped in a fresh `TypedBytesReader`. -/
def readStructure (r : TypedBytesReader) :
    Except PyErr (Nat × TypedBytesReader × TypedBytesReader) := do
  let (structureMarker, r) ← readU8 r
  if structureMarker ≠ 2 then
    .error (.runtimeError "Got a structure marker instead of 2")
  else do
    let (structureType, r) ← readU8 r
    let (includedDataSize, r) ← readU16 r
    let dataSize : Int := (includedDataSize : Int) - 4
    let (payload, r) ← r.readData dataSize
    .ok (structureType, TypedBytesReader.mk payload 0, r)

/-- The loops of `consume_data` in one function.  `k` is the number of
structures still owed in the current `for _ in range(record_number + 1)`
round; at `k = 0` the outer `while not reader.is_eof` loop either stops
or reads the next `u32` record count.  A value structure is rejected
when the current template is `None` *or* an empty dict
(`if not current_record_template` uses Python truthiness).  `fuel`
bounds the iterations: every iteration of either Python loop consumes
at least four bytes of the reader (on runs where no structure declares
an `included_data_size` below 4), so the `data.length + 1` supplied by
`consumeData` never runs out on an execution the Python loops finish. -/
def consumeLoop : Nat → Nat → TypedBytesReader →
    List (String × List DmlRecord) →
    Option (String × List (String × Nat)) →
    Except PyErr (List (String × List DmlRecord))
  | 0, _, _, _, _ => .error (.runtimeError "fuel exhausted")
  | fuel + 1, 0, r, records, cur =>
    if r.isEof then .ok records
    else do
      let (recordNumber, r) ← readU32 r
      consumeLoop fuel (recordNumber + 1) r records cur
  | fuel + 1, k + 1, r, records, cur => do
    let (structureType, payload, r) ← readStructure r
    if structureType = 1 then do
      let (recordName, tmpl) ← parseRecordTemplate payload
      consumeLoop fuel k r records (some (recordName, tmpl))
    else if structureType = 2 then
      match cur with
      | none => .error (.runtimeError "No record template to use for record")
      | some (recordName, tmpl) =>
        if tmpl.isEmpty then
          .error (.runtimeError "No record template to use for record")
        else do
          let recd ← parseRecord payload tmpl
          consumeLoop fuel k r (recordsAppend records recordName recd) cur
    else
      .error (.runtimeError "Unknown structure type")

/-- `consume_data` over a byte reader. -/
def consumeData (r : TypedBytesReader) :
    Except PyErr (List (String × List DmlRecord)) :=
  consumeLoop (r.data.length + 1) 0 r [] none

/-- `parse_records_from_bytes`. -/
def parseRecordsFromBytes (data : List Nat) :
    Except PyErr (List (String × List DmlRecord)) :=
  consumeData ⟨data, 0⟩

/-! ## InventoryStore (`db.py`)

The sqlite tables are modelled as lists of rows in insertion (rowid)
order; `fetchone` is the first matching row, `fetchall` the filtered
list in order.  `commit` is the identity: all statements run on the one
connection and their effects are immediately visible to later
statements. -/

/-- One `VersionedFileInfo` row, columns in table order. -/
structure VRow where
  crc : Int
  size_ : Int
  revision : String
  name : String
  deriving Repr, DecidableEq

/-- One `WadFileInfo` row, columns in table order. -/
structure WRow where
  file_offset : Int
  crc : Int
  size_ : Int
  compressed_size : Int
  is_compressed : Bool
  revision : String
  name : String
  wad_name : String
  deriving Repr, DecidableEq

/-- The three tables of `wizdiff.db`.  A revision row is its name and
its `date_` column (modelled as a `Nat` timestamp). -/
structure DB where
  revisions : List (String × Nat)
  versioned : List VRow
  wads : List WRow
  deriving Repr, DecidableEq

/-- `FileUpdateType`. -/
inductive FileUpdateType where
  | changed
  | unchanged
  | new
  deriving Repr, DecidableEq

/-- `add_revision_info`: plain `INSERT`; a duplicate primary key
(`revision_name`) raises `IntegrityError`. -/
def addRevisionInfo (db : DB) (name : String) (date : Nat) : Except PyErr DB :=
  if db.revisions.any (·.1 = name) then .error .integrityError
  else .ok { db with revisions := db.revisions ++ [(name, date)] }

/-- `delete_revision_info`. -/
def deleteRevisionInfo (db : DB) (name : String) : DB :=
  { db with revisions := db.revisions.filter (·.1 ≠ name) }

/-- `get_latest_revision`: `ORDER BY date_ DESC` then `fetchone`.  Among
equal dates sqlite's order is unspecified; the model keeps the earliest
inserted row. -/
def getLatestRevision (db : DB) : Option String :=
  (db.revisions.foldl
    (fun best p =>
      match best with
      | none => some p
      | some q => if p.2 > q.2 then some p else some q)
    none).map (·.1)

/-- `check_if_new_revision`: true iff no `RevisionInfo` row carries the
name. -/
def checkIfNewRevision (db : DB) (name : String) : Bool :=
  (db.revisions.find? (·.1 = name)).isNone

/-- `add_versioned_file_info`: validates `size >= 0` and a non-empty
name, then inserts; a duplicate `(revision, name)` primary key raises
`IntegrityError`. -/
def addVersionedFileInfo (db : DB) (crc size : Int) (revision name : String) :
    Except PyErr DB :=
  if size < 0 then .error (.valueError "Size cannot be negative")
  else if name = "" then .error (.valueError "Name cannot be empty")
  else if db.versioned.any (fun r => r.revision == revision && r.name == name) then
    .error .integrityError
  else .ok { db with versioned := db.versioned ++ [⟨crc, size, revision, name⟩] }

/-- `delete_versioned_file_infos_with_revision`. -/
def deleteVersionedFileInfosWithRevision (db : DB) (revision : String) : DB :=
  { db with versioned := db.versioned.filter (·.revision ≠ revision) }

/-- The `SELECT crc, size_ ... fetchone` of
`check_if_versioned_file_updated`: first row with the given
`(revision, name)`. -/
def firstVersionedRow (db : DB) (revision name : String) : Option VRow :=
  db.versioned.find? (fun r => r.revision == revision && r.name == name)

/-- `check_if_versioned_file_updated`: `new` when no row exists for
`(old_revision, name)`, otherwise `changed`/`unchanged` by comparing the
stored crc and size with the new ones. -/
def checkIfVersionedFileUpdated (db : DB) (newCrc newSize : Int)
    (oldRevision name : String) : FileUpdateType × Option Int × Option Int :=
  match firstVersionedRow db oldRevision name with
  | none => (.new, none, none)
  | some row =>
    if row.crc ≠ newCrc ∨ row.size_ ≠ newSize then
      (.changed, some row.crc, some row.size_)
    else
      (.unchanged, some row.crc, some row.size_)

/-- `get_all_versioned_files_from_revision` (`SELECT *`, row order). -/
def getAllVersionedFilesFromRevision (db : DB) (revision : String) : List VRow :=
  db.versioned.filter (·.revision = revision)

/-- `add_wad_file_info` (the eight-parameter store method itself, with
its validations and the `(revision, name, wad_name)` primary key). -/
def addWadFileInfo (db : DB) (fileOffset crc size compressedSize : Int)
    (isCompressed : Bool) (revision fileName wadName : String) :
    Except PyErr DB :=
  if size < 0 then .error (.valueError "Size cannot be negative")
  else if fileName = "" then .error (.valueError "Name cannot be empty")
  else if wadName = "" then .error (.valueError "Wad name cannot be empty")
  else if db.wads.any
      (fun r => r.revision == revision && r.name == fileName && r.wad_name == wadName) then
    .error .integrityError
  else
    .ok { db with wads := db.wads ++
      [⟨fileOffset, crc, size, compressedSize, isCompressed, revision, fileName, wadName⟩] }

/-- `update_wad_file_infos_revision_with_wad_name`:
`UPDATE WadFileInfo SET revision = ? WHERE wad_name is ?`. -/
def updateWadFileInfosRevisionWithWadName (db : DB) (wadName newRevision : String) : DB :=
  { db with wads := db.wads.map fun r =>
      if r.wad_name = wadName then { r with revision := newRevision } else r }

/-- `mass_update_wad_file_infos_revision_with_wad_names`: bulk
`UPDATE ... WHERE wad_name in (...)`. -/
def massUpdateWadFileInfosRevisionWithWadNames (db : DB) (wadNames : List String)
    (newRevision : String) : DB :=
  { db with wads := db.wads.map fun r =>
      if r.wad_name ∈ wadNames then { r with revision := newRevision } else r }

/-- `delete_wad_file_infos_with_revision`. -/
def deleteWadFileInfosWithRevision (db : DB) (revision : String) : DB :=
  { db with wads := db.wads.filter (·.revision ≠ revision) }

/-- `check_if_wad_file_updated`: the archive-entry counterpart of the
versioned-file classifier, keyed by `(revision, name, wad_name)`. -/
def checkIfWadFileUpdated (db : DB) (newCrc newSize : Int)
    (oldRevision fileName wadName : String) :
    FileUpdateType × Option Int × Option Int :=
  match db.wads.find?
      (fun r => r.revision == oldRevision && r.name == fileName && r.wad_name == wadName) with
  | none => (.new, none, none)
  | some row =>
    if row.crc ≠ newCrc ∨ row.size_ ≠ newSize then
      (.changed, some row.crc, some row.size_)
    else
      (.unchanged, some row.crc, some row.size_)

/-- `get_all_wad_files_from_wad_name_and_revision`: the source's query
is `SELECT crc, size_, name, file_offset, compressed_size, is_compressed
FROM WadFileInfo WHERE revision is (?) and name is (?)` with parameters
`(revision, wad_name)` — the wad name is compared against the `name`
column, not the `wad_name` column. -/
def getAllWadFilesFromWadNameAndRevision (db : DB) (wadName revision : String) :
    List (Int × Int × String × Int × Int × Bool) :=
  (db.wads.filter (fun r => r.revision == revision && r.name == wadName)).map
    (fun r => (r.crc, r.size_, r.name, r.file_offset, r.compressed_size, r.is_compressed))

/-! ## Deltas (`delta.py`) and the diff engine (`update_notifier.py`)

Network inputs are parameters: the parsed manifest is passed as a table
list and the archive journals as a function from archive URL to the
journal that `WebDriver.get_wad_journal_crcs` would return.  A journal
value is the 5-tuple `(offset, crc, size, zsize, is_zip)` built at
`webdriver.py` line 97. -/

/-- `WadInnerFileInfo` (`delta.py`): nine fields, in dataclass order. -/
structure WadInnerFileInfo where
  name : String
  wad_name : String
  size : Int
  crc : Int
  compressed_size : Int
  is_compressed : Bool
  file_offset : Int
  old_size : Option Int
  old_crc : Option Int
  deriving Repr, DecidableEq

/-- The delta variants of `delta.py`.  `old_crc`/`old_size` are `Option`
because the classifier supplies `None` for a `new` file. -/
inductive Delta where
  | createdFile (name revision url : String) (newCrc newSize : Int)
      (oldCrc oldSize : Option Int)
  | changedFile (name revision url : String) (newCrc newSize : Int)
      (oldCrc oldSize : Option Int)
  | deletedFile (name revision url : String) (oldCrc oldSize : Int)
  | createdWadFile (name revision url : String) (newCrc newSize : Int)
      (oldCrc oldSize : Option Int)
      (createdInnerFiles : List WadInnerFileInfo)
  | changedWadFile (name revision url : String) (newCrc newSize : Int)
      (oldCrc oldSize : Option Int)
      (deletedInnerFiles createdInnerFiles changedInnerFiles : List WadInnerFileInfo)
  | deletedWadFile (name revision url : String) (oldCrc oldSize : Int)
      (deletedInnerFiles : List WadInnerFileInfo)
  deriving Repr, DecidableEq

/-- The notifier hook invocations made by the engine, in order. -/
inductive Emit where
  | revision (name : String)
  | anyFile (d : Delta)
  | plainFile (d : Delta)
  | wadFile (d : Delta)
  deriving Repr, DecidableEq

/-- A journal as returned by `WebDriver.get_wad_journal_crcs`: file name
to `(offset, crc, size, zsize, is_zip)`, in insertion order. -/
abbrev WadJournal := List (String × (Int × Int × Int × Int × Bool))

/-- The binding
`for inner_file, (crc, size, compressed_size, is_compressed) in journal_crcs.items()`
at `update_notifier.py` line 323 destructures each five-element journal
value into four names, which raises
`ValueError: too many values to unpack (expected 4)` in Python. -/
def unpackJournalValue (_v : Int × Int × Int × Int × Bool) :
    Except PyErr (Int × Int × Int × Bool) :=
  .error (.valueError "too many values to unpack (expected 4)")

/-- A call of `WadInnerFileInfo(...)` with eight positional arguments
(`update_notifier.py` lines 275, 326 and 362).  The dataclass requires
nine, so Python raises
`TypeError: missing 1 required positional argument`. -/
def wadInnerFileInfoCall8 {α₁ α₂ α₃ α₄ α₅ α₆ α₇ α₈ : Type}
    (_a₁ : α₁) (_a₂ : α₂) (_a₃ : α₃) (_a₄ : α₄)
    (_a₅ : α₅) (_a₆ : α₆) (_a₇ : α₇) (_a₈ : α₈) :
    Except PyErr WadInnerFileInfo :=
  .error (.typeError "WadInnerFileInfo missing 1 required positional argument")

/-- A call of `self.db.add_wad_file_info(...)` with seven arguments
(`update_notifier.py` line 348, also line 84): the method takes eight,
so Python raises `TypeError: missing 1 required positional argument`. -/
def addWadFileInfoCall7 {α₁ α₂ α₃ α₄ α₅ α₆ α₇ : Type}
    (_a₁ : α₁) (_a₂ : α₂) (_a₃ : α₃) (_a₄ : α₄)
    (_a₅ : α₅) (_a₆ : α₆) (_a₇ : α₇) :
    Except PyErr DB :=
  .error (.typeError "add_wad_file_info missing 1 required positional argument")

/-- A Python value, for the cross-type comparison
`inner_file not in journal_crcs.keys()`: `inner_file` there is the
six-column row tuple from
`get_all_wad_files_from_wad_name_and_revision`, the keys are strings. -/
inductive PyVal where
  | pstr (s : String)
  | ptup6 (a b : Int) (c : String) (d e : Int) (f : Bool)
  deriving Repr, DecidableEq, BEq

/-- Python `x in l` on a list of values (`==` between values of
different types, such as a tuple and a str, is `False`). -/
def pyIn (v : PyVal) (l : List PyVal) : Bool :=
  l.any (· == v)

/-- Python `str.endswith(pat)`. -/
def pyEndsWith (s pat : String) : Bool :=
  pat.toList.isSuffixOf s.toList

/-- The journal-items loop of `check_if_wad_files_updated`
(`update_notifier.py` lines 323–356).  Each item's five-tuple value is
destructured into four names, so the body below the binding is dead
code in Python; it is embedded anyway, faithfully. -/
def wadJournalItemsLoop (db : DB) (items : WadJournal)
    (wadName revisionName oldRevision : String)
    (created changed : List WadInnerFileInfo) :
    Except PyErr (List WadInnerFileInfo × List WadInnerFileInfo × DB) :=
  match items with
  | [] => .ok (created, changed, db)
  | (innerFile, v) :: rest => do
    let (crc, size, compressedSize, isCompressed) ← unpackJournalValue v
    let (res, oldCrc, oldSize) := checkIfWadFileUpdated db crc size oldRevision innerFile wadName
    let innerFileInfo ← wadInnerFileInfoCall8 innerFile wadName size crc
      compressedSize isCompressed oldSize oldCrc
    let (created, changed) :=
      match res with
      | .new => (created ++ [innerFileInfo], changed)
      | .changed => (created, changed ++ [innerFileInfo])
      | .unchanged => (created, changed)
    let db ← addWadFileInfoCall7 crc size compressedSize isCompressed
      revisionName innerFile wadName
    wadJournalItemsLoop db rest wadName revisionName oldRevision created changed

/-- The deleted-entry scan of `check_if_wad_files_updated`
(`update_notifier.py` lines 358–372): for every row returned by
`get_all_wad_files_from_wad_name_and_revision`, test the row tuple for
membership in the journal's key view and, when absent, build a
`WadInnerFileInfo` from eight positional arguments. -/
def collectDeletedInnerFiles (rows : List (Int × Int × String × Int × Int × Bool))
    (journalKeys : List String) (wadName : String)
    (acc : List WadInnerFileInfo) : Except PyErr (List WadInnerFileInfo) :=
  match rows with
  | [] => .ok acc
  | (crc, size, name, fileOffset, compressedSize, isCompressed) :: rest =>
    if ¬ pyIn (.ptup6 crc size name fileOffset compressedSize isCompressed)
        (journalKeys.map .pstr) then do
      let info ← wadInnerFileInfoCall8 name wadName (0 : Int) (0 : Int)
        compressedSize isCompressed size crc
      collectDeletedInnerFiles rest journalKeys wadName (acc ++ [info])
    else
      collectDeletedInnerFiles rest journalKeys wadName acc

/-- `check_if_wad_files_updated` (`update_notifier.py` lines 311–374),
with the fetched journal passed in for `self._get_wad_journal(wad_url)`.
Returns `(deleted, created, changed, db)`. -/
def checkIfWadFilesUpdated (db : DB) (journal : WadJournal)
    (wadName revisionName oldRevision : String) :
    Except PyErr (List WadInnerFileInfo × List WadInnerFileInfo ×
      List WadInnerFileInfo × DB) := do
  let (created, changed, db) ←
    wadJournalItemsLoop db journal wadName revisionName oldRevision [] []
  let rows := getAllWadFilesFromWadNameAndRevision db wadName oldRevision
  let deleted ← collectDeletedInnerFiles rows (journal.map (·.1)) wadName []
  .ok (deleted, created, changed, db)

/-- One manifest record handled by the main loop of
`check_if_versioned_files_changed` (`update_notifier.py` lines
162–263): classify, emit the created/changed delta (with archive drill
down for `.wad` names), and insert the `VersionedFileInfo` row under the
new revision. -/
structure ManifestRecord where
  srcFileName : String
  crc : Int
  size : Int
  deriving Repr, DecidableEq

/-- Loop body for one manifest record. -/
def manifestRecordStep (db : DB) (oldRevision newRevision baseUrl : String)
    (journals : String → WadJournal) (record : ManifestRecord)
    (newFileNames : List String) (emits : List Emit) :
    Except PyErr (List String × DB × List Emit) := do
  let name := record.srcFileName
  let newFileNames := newFileNames ++ [name]
  let (res, oldCrc, oldSize) :=
    checkIfVersionedFileUpdated db record.crc record.size oldRevision name
  let fileUrl := baseUrl ++ "/" ++ name
  let (db, emits) ←
    match res with
    | .changed =>
      if pyEndsWith name ".wad" then do
        let (deleted, created, changed, db) ←
          checkIfWadFilesUpdated db (journals fileUrl) name newRevision oldRevision
        let delta := Delta.changedWadFile name newRevision fileUrl
          record.crc record.size oldCrc oldSize deleted created changed
        Except.ok (db, emits ++ [.anyFile delta, .wadFile delta])
      else
        let delta := Delta.changedFile name newRevision fileUrl
          record.crc record.size oldCrc oldSize
        Except.ok (db, emits ++ [.anyFile delta, .plainFile delta])
    | .new =>
      if pyEndsWith name ".wad" then do
        let (deleted, created, changed, db) ←
          checkIfWadFilesUpdated db (journals fileUrl) name newRevision oldRevision
        if ¬ deleted.isEmpty ∨ ¬ changed.isEmpty then
          Except.error (.runtimeError
            "New wad file should not have deleted or changed inner files")
        else
          let delta := Delta.createdWadFile name newRevision fileUrl
            record.crc record.size oldCrc oldSize created
          Except.ok (db, emits ++ [.anyFile delta, .wadFile delta])
      else
        let delta := Delta.createdFile name newRevision fileUrl
          record.crc record.size oldCrc oldSize
        Except.ok (db, emits ++ [.anyFile delta, .plainFile delta])
    | .unchanged =>
      Except.ok (db, emits)
  let db ← addVersionedFileInfo db record.crc record.size newRevision record.srcFileName
  .ok (newFileNames, db, emits)

/-- The manifest loop over all tables, skipping the meta tables
`_TableList` and `About`. -/
def manifestTablesLoop (db : DB) (oldRevision newRevision baseUrl : String)
    (journals : String → WadJournal)
    (tables : List (String × List ManifestRecord))
    (newFileNames : List String) (emits : List Emit) :
    Except PyErr (List String × DB × List Emit) :=
  match tables with
  | [] => .ok (newFileNames, db, emits)
  | (tableName, records) :: rest => do
    if tableName = "_TableList" ∨ tableName = "About" then
      manifestTablesLoop db oldRevision newRevision baseUrl journals rest
        newFileNames emits
    else do
      let (newFileNames, db, emits) ←
        manifestRecordsLoop db oldRevision newRevision baseUrl journals records
          newFileNames emits
      manifestTablesLoop db oldRevision newRevision baseUrl journals rest
        newFileNames emits
where
  /-- The inner record loop of one table. -/
  manifestRecordsLoop (db : DB) (oldRevision newRevision baseUrl : String)
      (journals : String → WadJournal) (records : List ManifestRecord)
      (newFileNames : List String) (emits : List Emit) :
      Except PyErr (List String × DB × List Emit) :=
    match records with
    | [] => .ok (newFileNames, db, emits)
    | record :: rest => do
      let (newFileNames, db, emits) ←
        manifestRecordStep db oldRevision newRevision baseUrl journals record
          newFileNames emits
      manifestRecordsLoop db oldRevision newRevision baseUrl journals rest
        newFileNames emits

/-- The deleted-file scan of `check_if_versioned_files_changed`
(`update_notifier.py` lines 267–309): every old-revision row whose name
did not appear in the manifest yields a deleted delta whose `url` is
`base_url + name`. -/
def deletedScanLoop (db : DB) (oldRevision baseUrl : String)
    (lastRevisionFiles : List VRow) (newFileNames : List String)
    (emits : List Emit) : Except PyErr (List Emit) :=
  match lastRevisionFiles with
  | [] => .ok emits
  | row :: rest => do
    if row.name ∈ newFileNames then
      deletedScanLoop db oldRevision baseUrl rest newFileNames emits
    else if pyEndsWith row.name ".wad" then do
      let deletedInnerFiles ← collectDeletedTopLevel
        (getAllWadFilesFromWadNameAndRevision db row.name oldRevision) row.name []
      let delta := Delta.deletedWadFile row.name row.revision (baseUrl ++ row.name)
        row.crc row.size_ deletedInnerFiles
      deletedScanLoop db oldRevision baseUrl rest newFileNames
        (emits ++ [.anyFile delta, .wadFile delta])
    else
      let delta := Delta.deletedFile row.name row.revision (baseUrl ++ row.name)
        row.crc row.size_
      deletedScanLoop db oldRevision baseUrl rest newFileNames
        (emits ++ [.anyFile delta, .plainFile delta])
where
  /-- Lines 272–285: build a `WadInnerFileInfo` from eight positional
  arguments for every row of the (old revision) archive query. -/
  collectDeletedTopLevel (rows : List (Int × Int × String × Int × Int × Bool))
      (wadName : String) (acc : List WadInnerFileInfo) :
      Except PyErr (List WadInnerFileInfo) :=
    match rows with
    | [] => .ok acc
    | (crc, size, name, fileOffset, compressedSize, isCompressed) :: rest => do
      let _ := fileOffset
      let info ← wadInnerFileInfoCall8 name wadName (0 : Int) (0 : Int)
        compressedSize isCompressed size crc
      collectDeletedTopLevel rest wadName (acc ++ [info])

/-- `check_if_versioned_files_changed` (`update_notifier.py` lines
139–309): guard on a falsy old revision, snapshot the old inventory,
walk the manifest, commit, then scan for deletions. -/
def checkIfVersionedFilesChanged (db : DB) (oldRevision : Option String)
    (newRevision : String) (tables : List (String × List ManifestRecord))
    (journals : String → WadJournal) (baseUrl : String) :
    Except PyErr (DB × List Emit) := do
  let oldRev ←
    match oldRevision with
    | none => Except.error (.valueError "Old revision must be a string")
    | some s =>
      if s = "" then Except.error (.valueError "Old revision must be a string")
      else Except.ok s
  let lastRevisionFiles := getAllVersionedFilesFromRevision db oldRev
  let (newFileNames, db, emits) ←
    manifestTablesLoop db oldRev newRevision baseUrl journals tables [] []
  let emits ← deletedScanLoop db oldRev baseUrl lastRevisionFiles newFileNames emits
  .ok (db, emits)

/-- `get_revision_from_url`: `re.search(r"WizPatcher/([^/]+)", url)` —
the leftmost position where the literal `WizPatcher/` is followed by at
least one non-`/` character; the capture extends greedily to the next
`/` or the end. -/
def searchRevision : List Char → Option String
  | [] => none
  | c :: rest =>
    let cs := c :: rest
    let pat := "WizPatcher/".toList
    if pat.isPrefixOf cs then
      let capture := (cs.drop pat.length).takeWhile (· ≠ '/')
      if capture.isEmpty then searchRevision rest else some (String.mk capture)
    else searchRevision rest

/-- `get_revision_from_url`, raising `ValueError` when the pattern is
absent. -/
def getRevisionFromUrl (url : String) : Except PyErr String :=
  match searchRevision url.toList with
  | some s => .ok s
  | none => .error (.valueError "Reversion string not found")

/-- `remove_revision` on a possibly-`None` name (a `None` binds SQL
`NULL`, which matches no row in any of the three tables). -/
def removeRevisionOpt (db : DB) (name : Option String) : DB :=
  match name with
  | none => db
  | some n =>
    deleteWadFileInfosWithRevision
      (deleteVersionedFileInfosWithRevision (deleteRevisionInfo db n) n) n

/-- `new_revision` (`update_notifier.py` lines 124–137): announce, run
the diff pass against `get_latest_revision`, re-extract and store the
revision, and optionally purge the old one. -/
def newRevision (db : DB) (revisionName fileListUrl baseUrl : String)
    (tables : List (String × List ManifestRecord))
    (journals : String → WadJournal) (now : Nat) (deleteOldRevisions : Bool) :
    Except PyErr (DB × List Emit) := do
  let emits := [Emit.revision revisionName]
  let oldRevision := getLatestRevision db
  let (db, passEmits) ←
    checkIfVersionedFilesChanged db oldRevision revisionName tables journals baseUrl
  let revision ← getRevisionFromUrl fileListUrl
  let db ← addRevisionInfo db revision now
  let db := if deleteOldRevisions then removeRevisionOpt db oldRevision else db
  .ok (db, emits ++ passEmits)

/-- One iteration of `update_loop` (`update_notifier.py` lines 96–108),
without the sleep: extract the revision from the manifest URL, and only
when `check_if_new_revision` reports it unseen run the diff pass. -/
def updateTick (db : DB) (fileListUrl baseUrl : String)
    (tables : List (String × List ManifestRecord))
    (journals : String → WadJournal) (now : Nat) (deleteOldRevisions : Bool) :
    Except PyErr (DB × List Emit) := do
  let revision ← getRevisionFromUrl fileListUrl
  if checkIfNewRevision db revision then
    newRevision db revision fileListUrl baseUrl tables journals now deleteOldRevisions
  else
    .ok (db, [])

/-! ## The archive-journal retry wrapper (`UpdateNotifier._get_wad_journal`) -/

/-- `JOURNAL_RETRIES`. -/
def journalRetries : Nat := 10

/-- `JOURNAL_SLEEP_TIME`. -/
def journalSleepTime : Nat := 60

/-- The outcome of one `self.webdriver.get_wad_journal_crcs(wad_url)`
call: a journal, one of the two caught exception types
(`requests.exceptions.HTTPError`, `gzip.BadGzipFile`), or an uncaught
exception. -/
inductive FetchOutcome (J : Type) where
  | ok (j : J)
  | httpError
  | badGzipFile
  | raised (e : PyErr)
  deriving Repr, DecidableEq

/-- Observable steps of the retry wrapper. -/
inductive JournalAction where
  | attempt (i : Nat)
  | sleep (seconds : Nat)
  deriving Repr, DecidableEq

/-- The `for _ in range(JOURNAL_RETRIES)` loop of `_get_wad_journal`:
attempt `i`, return on success, sleep `JOURNAL_SLEEP_TIME` and continue
on either caught exception, re-raise anything else, and raise
`ValueError` when the loop ends. -/
def retryLoop {J : Type} (outcomes : Nat → FetchOutcome J) :
    Nat → Nat → Except PyErr J × List JournalAction
  | _, 0 => (.error (.valueError "Could not fetch journal"), [])
  | i, r + 1 =>
    match outcomes i with
    | .ok j => (.ok j, [.attempt i])
    | .httpError =>
      let (res, tr) := retryLoop outcomes (i + 1) r
      (res, .attempt i :: .sleep journalSleepTime :: tr)
    | .badGzipFile =>
      let (res, tr) := retryLoop outcomes (i + 1) r
      (res, .attempt i :: .sleep journalSleepTime :: tr)
    | .raised e => (.error e, [.attempt i])

/-- `_get_wad_journal` as a function of the successive fetch outcomes:
the result together with the trace of attempts and sleeps. -/
def getWadJournalModel {J : Type} (outcomes : Nat → FetchOutcome J) :
    Except PyErr J × List JournalAction :=
  retryLoop outcomes 0 journalRetries

/-- A failure that `_get_wad_journal` catches and retries on. -/
def isRetryFailure {J : Type} (o : FetchOutcome J) : Prop :=
  o = .httpError ∨ o = .badGzipFile

/-- The trace of `n` consecutive failed attempts starting at attempt
`i`: each failed attempt is followed by a 60-second sleep. -/
def failTrace (i : Nat) : Nat → List JournalAction
  | 0 => []
  | n + 1 => .attempt i :: .sleep journalSleepTime :: failTrace (i + 1) n

/-- Number of fetch attempts recorded in a trace. -/
def countAttempts (tr : List JournalAction) : Nat :=
  (tr.filter fun a => match a with | .attempt _ => true | _ => false).length

/-! ## Claim theorems -/

/-- Claim C9: a polling tick whose manifest URL carries a revision tag
already present in the store checks `check_if_new_revision`, finds the
revision known, and returns without running the diff pass: the database
is returned unchanged and no delta is emitted. -/
theorem updateTick_known_revision_is_noop (db : DB)
    (fileListUrl baseUrl : String)
    (tables : List (String × List ManifestRecord))
    (journals : String → WadJournal) (now : Nat) (deleteOldRevisions : Bool)
    (rev : String)
    (hurl : getRevisionFromUrl fileListUrl = .ok rev)
    (hrev : ∃ t, (rev, t) ∈ db.revisions) :
    updateTick db fileListUrl baseUrl tables journals now deleteOldRevisions
      = .ok (db, []) := by
  have hnew : checkIfNewRevision db rev = false := by
    obtain ⟨t, ht⟩ := hrev
    unfold checkIfNewRevision
    cases hfind : db.revisions.find? (·.1 = rev) with
    | some p => rfl
    | none =>
      rw [List.find?_eq_none] at hfind
      have h2 := hfind (rev, t) ht
      simp at h2
  unfold updateTick
  rw [hurl]
  show (if checkIfNewRevision db rev then
          newRevision db rev fileListUrl baseUrl tables journals now deleteOldRevisions
        else .ok (db, [])) = .ok (db, [])
  rw [hnew]
  simp

/-- Witness for C9 at a concrete store and URL. -/
theorem updateTick_known_revision_is_noop_witness :
    updateTick ⟨[("V_r1", 7)], [], []⟩
      "https://x/WizPatcher/V_r1/LatestFileList.bin" "https://x/LatestBuild"
      [] (fun _ => []) 5 true
      = .ok (⟨[("V_r1", 7)], [], []⟩, []) :=
  updateTick_known_revision_is_noop ⟨[("V_r1", 7)], [], []⟩
    "https://x/WizPatcher/V_r1/LatestFileList.bin" "https://x/LatestBuild"
    [] (fun _ => []) 5 true "V_r1" rfl ⟨7, by simp⟩

/-- Claim C1 (refuted — the code never performs the retag): a diff pass
whose manifest advertises `Root.wad` unchanged (crc 1, size 10, matching
the stored row under `old`) completes without error and without deltas,
but the archive-entry row for `a.txt` stored under `old` is still tagged
`old` afterwards; the bulk retag
`mass_update_wad_file_infos_revision_with_wad_names`, which the spec
says is called after iterating the manifest, would have produced the
`new` tag. -/
theorem unchanged_archive_rows_not_retagged :
    checkIfVersionedFilesChanged
        ⟨[("old", 0)], [⟨1, 10, "old", "Root.wad"⟩],
          [⟨0, 9, 4, 4, false, "old", "a.txt", "Root.wad"⟩]⟩
        (some "old") "new" [("Base", [⟨"Root.wad", 1, 10⟩])]
        (fun _ => []) "https://x/LatestBuild"
      = .ok (⟨[("old", 0)],
          [⟨1, 10, "old", "Root.wad"⟩, ⟨1, 10, "new", "Root.wad"⟩],
          [⟨0, 9, 4, 4, false, "old", "a.txt", "Root.wad"⟩]⟩, [])
    ∧ massUpdateWadFileInfosRevisionWithWadNames
        ⟨[("old", 0)], [⟨1, 10, "old", "Root.wad"⟩],
          [⟨0, 9, 4, 4, false, "old", "a.txt", "Root.wad"⟩]⟩
        ["Root.wad"] "new"
      = ⟨[("old", 0)], [⟨1, 10, "old", "Root.wad"⟩],
          [⟨0, 9, 4, 4, false, "new", "a.txt", "Root.wad"⟩]⟩ :=
  ⟨rfl, rfl⟩

/-- Claim C2 (refuted — the store query filters the wrong column): with
a single archive-entry row `(old, a.txt, Root.wad)` in the store,
`get_all_wad_files_from_wad_name_and_revision("Root.wad", "old")`
returns nothing (its SQL compares the wad name against the `name`
column), so an archive diff with an empty journal reports no deleted
entries even though `a.txt` is stored under the archive and absent from
the journal. -/
theorem deleted_scan_query_misses_archive_rows :
    getAllWadFilesFromWadNameAndRevision
        ⟨[], [], [⟨0, 9, 4, 4, false, "old", "a.txt", "Root.wad"⟩]⟩
        "Root.wad" "old"
      = []
    ∧ checkIfWadFilesUpdated
        ⟨[], [], [⟨0, 9, 4, 4, false, "old", "a.txt", "Root.wad"⟩]⟩
        [] "Root.wad" "new" "old"
      = .ok ([], [], [],
          ⟨[], [], [⟨0, 9, 4, 4, false, "old", "a.txt", "Root.wad"⟩]⟩) :=
  ⟨rfl, rfl⟩

/-- Claim C3 (refuted — the archive diff crashes): on the spec's
content-change scenario (stored `a.txt` with crc 9 / size 4 under `old`,
journal advertising `a.txt` with crc 8 / size 4),
`check_if_wad_files_updated` raises `ValueError` while destructuring the
five-element journal value into four names, so no `ChangedArchive` delta
is produced; the full diff pass on the same scenario aborts with the
same error. -/
theorem changed_archive_scenario_crashes_on_unpack :
    checkIfWadFilesUpdated
        ⟨[], [], [⟨0, 9, 4, 4, false, "old", "a.txt", "Root.wad"⟩]⟩
        [("a.txt", (0, 8, 4, 4, false))] "Root.wad" "new" "old"
      = .error (.valueError "too many values to unpack (expected 4)")
    ∧ checkIfVersionedFilesChanged
        ⟨[("old", 0)], [⟨1, 10, "old", "Root.wad"⟩],
          [⟨0, 9, 4, 4, false, "old", "a.txt", "Root.wad"⟩]⟩
        (some "old") "new" [("Base", [⟨"Root.wad", 2, 10⟩])]
        (fun _ => [("a.txt", (0, 8, 4, 4, false))]) "https://x/LatestBuild"
      = .error (.valueError "too many values to unpack (expected 4)") :=
  ⟨rfl, rfl⟩

/-- Claim C5 (refuted — a missing marker does not raise): on the
five-byte response buffer `00 00 05 61 62`, which contains no `http`
marker, `find` returns `-1`, the length prefix is read from the wrapped
negative slice `data[-3:-1]`, the overlong span is silently clamped, and
the extraction returns the string pair `("b", "b")` instead of raising. -/
theorem missing_http_marker_returns_urls :
    pyFind [0, 0, 5, 97, 98] httpBytes = -1
    ∧ getPatchUrlsExtract [0, 0, 5, 97, 98] = .ok ("b", "b") :=
  ⟨rfl, rfl⟩

/-- Claim C7 (refuted for deleted deltas): a diff pass over a manifest
that omits the stored plain file `data.txt` emits a deleted delta whose
`url` is `base_url + name` — `https://x/LatestBuilddata.txt`, without
the `/` separator — while a changed file in the same pass gets
`base_url + "/" + name`. -/
theorem deleted_delta_url_lacks_separator :
    checkIfVersionedFilesChanged
        ⟨[("old", 0)], [⟨5, 7, "old", "data.txt"⟩], []⟩
        (some "old") "new" [("Base", [])] (fun _ => []) "https://x/LatestBuild"
      = .ok (⟨[("old", 0)], [⟨5, 7, "old", "data.txt"⟩], []⟩,
          [.anyFile (.deletedFile "data.txt" "old" "https://x/LatestBuilddata.txt" 5 7),
           .plainFile (.deletedFile "data.txt" "old" "https://x/LatestBuilddata.txt" 5 7)])
    ∧ "https://x/LatestBuilddata.txt" ≠ "https://x/LatestBuild" ++ "/" ++ "data.txt"
    ∧ checkIfVersionedFilesChanged
        ⟨[("old", 0)], [⟨5, 7, "old", "data.txt"⟩], []⟩
        (some "old") "new" [("Base", [⟨"data.txt", 6, 7⟩])]
        (fun _ => []) "https://x/LatestBuild"
      = .ok (⟨[("old", 0)],
          [⟨5, 7, "old", "data.txt"⟩, ⟨6, 7, "new", "data.txt"⟩], []⟩,
          [.anyFile (.changedFile "data.txt" "new" "https://x/LatestBuild/data.txt" 6 7 (some 5) (some 7)),
           .plainFile (.changedFile "data.txt" "new" "https://x/LatestBuild/data.txt" 6 7 (some 5) (some 7))]) :=
  ⟨rfl, by decide, rfl⟩

/-- Claim C4: for every `(new_crc, new_size, old_revision, name)` the
versioned-file classifier returns exactly one of the three statuses:
`new` (with both old values null) exactly when no row exists for
`(old_revision, name)`, `unchanged` when the stored row's crc and size
both equal the new values, and `changed` otherwise — in the latter two
cases returning the stored old crc and size. -/
theorem classify_versioned_file_trichotomy (db : DB) (newCrc newSize : Int)
    (oldRevision name : String) :
    (firstVersionedRow db oldRevision name = none ↔
      ∀ r ∈ db.versioned, ¬(r.revision = oldRevision ∧ r.name = name)) ∧
    (firstVersionedRow db oldRevision name = none →
      checkIfVersionedFileUpdated db newCrc newSize oldRevision name
        = (.new, none, none)) ∧
    (∀ row, firstVersionedRow db oldRevision name = some row →
      (row.crc = newCrc ∧ row.size_ = newSize →
        checkIfVersionedFileUpdated db newCrc newSize oldRevision name
          = (.unchanged, some row.crc, some row.size_)) ∧
      ((row.crc ≠ newCrc ∨ row.size_ ≠ newSize) →
        checkIfVersionedFileUpdated db newCrc newSize oldRevision name
          = (.changed, some row.crc, some row.size_))) := by
  refine ⟨?_, ?_, ?_⟩
  · simp [firstVersionedRow, List.find?_eq_none, not_and]
  · intro h
    simp [checkIfVersionedFileUpdated, h]
  · intro row h
    constructor
    · rintro ⟨h1, h2⟩
      simp [checkIfVersionedFileUpdated, h, h1, h2]
    · intro h3
      simp only [checkIfVersionedFileUpdated, h]
      rw [if_pos h3]

/-- Witness for C4: the three classifier outcomes at a concrete store
holding the row `(crc 9, size 4, 'old', 'a.txt')`. -/
theorem classify_versioned_file_trichotomy_witness :
    checkIfVersionedFileUpdated ⟨[], [⟨9, 4, "old", "a.txt"⟩], []⟩ 8 4 "old" "a.txt"
      = (.changed, some 9, some 4)
    ∧ checkIfVersionedFileUpdated ⟨[], [⟨9, 4, "old", "a.txt"⟩], []⟩ 9 4 "old" "a.txt"
      = (.unchanged, some 9, some 4)
    ∧ checkIfVersionedFileUpdated ⟨[], [⟨9, 4, "old", "a.txt"⟩], []⟩ 8 4 "old" "b.txt"
      = (.new, none, none) :=
  ⟨((classify_versioned_file_trichotomy ⟨[], [⟨9, 4, "old", "a.txt"⟩], []⟩
        8 4 "old" "a.txt").2.2 ⟨9, 4, "old", "a.txt"⟩ rfl).2 (by decide),
   ((classify_versioned_file_trichotomy ⟨[], [⟨9, 4, "old", "a.txt"⟩], []⟩
        9 4 "old" "a.txt").2.2 ⟨9, 4, "old", "a.txt"⟩ rfl).1 (by decide),
   (classify_versioned_file_trichotomy ⟨[], [⟨9, 4, "old", "a.txt"⟩], []⟩
        8 4 "old" "b.txt").2.1 rfl⟩

/-- Claim C10: `TypedBytesReader.read_data` errors whenever
`offset + size` exceeds the buffer length; on success it returns a slice
of exactly `size` bytes (for the non-negative offsets and sizes every
caller uses), advances the offset by exactly `size`, and leaves the new
offset within the buffer; consequently the typed reads built on it
(`read_typed` via `readUnsigned`) either consume in-bounds bytes or
fail. -/
lemma readData_ok_facts (r : TypedBytesReader) (sz : Int) (bs : List Nat)
    (r' : TypedBytesReader) (h : r.readData sz = .ok (bs, r')) :
    r'.data = r.data ∧ r'.offset = r.offset + sz ∧
    r'.offset ≤ (r.data.length : Int) ∧
    (0 ≤ r.offset → 0 ≤ sz → (bs.length : Int) = sz) := by
  unfold TypedBytesReader.readData at h
  by_cases hg : r.offset + sz > (r.data.length : Int)
  · rw [if_pos hg] at h
    exact absurd h (by simp)
  · rw [if_neg hg] at h
    have h' := Except.ok.inj h
    have hbs : pySlice r.data r.offset (r.offset + sz) = bs := congrArg Prod.fst h'
    have hr' : ({ r with offset := r.offset + sz } : TypedBytesReader) = r' :=
      congrArg Prod.snd h'
    subst hr'
    refine ⟨rfl, rfl, by simpa using hg, ?_⟩
    intro h0 hsz
    rw [← hbs]
    simp only [pySlice, pyBound, List.length_take, List.length_drop]
    rw [if_neg (by omega), if_neg (by omega)]
    omega

theorem read_data_bounds (r : TypedBytesReader) (sz : Int) :
    (r.offset + sz > (r.data.length : Int) →
      r.readData sz = .error (.runtimeError "Read more data than in buffer")) ∧
    (∀ bs r', r.readData sz = .ok (bs, r') →
      r'.data = r.data ∧ r'.offset = r.offset + sz ∧
      r'.offset ≤ (r.data.length : Int) ∧
      (0 ≤ r.offset → 0 ≤ sz → (bs.length : Int) = sz)) ∧
    (∀ numBytes v r', readUnsigned r numBytes = .ok (v, r') →
      r'.data = r.data ∧ r'.offset = r.offset + numBytes ∧
      r'.offset ≤ (r.data.length : Int)) := by
  refine ⟨?_, fun bs r' h => readData_ok_facts r sz bs r' h, ?_⟩
  · intro hg
    unfold TypedBytesReader.readData
    rw [if_pos hg]
  · intro n v r' h
    unfold readUnsigned at h
    cases hd : r.readData (n : Int) with
    | error e =>
      rw [hd] at h
      change Except.error e = Except.ok (v, r') at h
      exact Except.noConfusion h
    | ok p =>
      obtain ⟨bs, r₂⟩ := p
      rw [hd] at h
      change (if bs.length = n then Except.ok (leNat bs, r₂)
        else Except.error PyErr.structError) = Except.ok (v, r') at h
      by_cases hl : bs.length = n
      · rw [if_pos hl] at h
        have hr' : r₂ = r' := congrArg Prod.snd (Except.ok.inj h)
        subst hr'
        obtain ⟨hdata, hoff, hle, _⟩ := readData_ok_facts r (n : Int) bs r₂ hd
        exact ⟨hdata, hoff, hle⟩
      · rw [if_neg hl] at h
        exact Except.noConfusion h

/-- Witness for C10: an over-long read on a three-byte buffer errors; a
two-byte read from offset 0 returns exactly two bytes and moves the
offset to 2. -/
theorem read_data_bounds_witness :
    (TypedBytesReader.mk [1, 2, 3] 0).readData 5
      = .error (.runtimeError "Read more data than in buffer")
    ∧ ((TypedBytesReader.mk [1, 2, 3] 2).data = [1, 2, 3]
       ∧ (TypedBytesReader.mk [1, 2, 3] 2).offset = (0 : Int) + 2
       ∧ (TypedBytesReader.mk [1, 2, 3] 2).offset ≤ ((3 : Nat) : Int)
       ∧ (0 ≤ (0 : Int) → 0 ≤ (2 : Int) → (([1, 2] : List Nat).length : Int) = 2)) :=
  ⟨(read_data_bounds ⟨[1, 2, 3], 0⟩ 5).1 (by decide),
   (read_data_bounds ⟨[1, 2, 3], 0⟩ 2).2.1 [1, 2] ⟨[1, 2, 3], 2⟩ rfl⟩

/-! ### The retry-policy development for C8 -/

lemma countAttempts_attempt (i : Nat) (tr : List JournalAction) :
    countAttempts (.attempt i :: tr) = countAttempts tr + 1 := by
  simp [countAttempts, List.filter]

lemma countAttempts_sleep (s : Nat) (tr : List JournalAction) :
    countAttempts (.sleep s :: tr) = countAttempts tr := by
  simp [countAttempts, List.filter]

lemma retryLoop_attempts_le {J : Type} (o : Nat → FetchOutcome J) :
    ∀ r i, countAttempts (retryLoop o i r).2 ≤ r := by
  intro r
  induction r with
  | zero => intro i; simp [retryLoop, countAttempts]
  | succ r ih =>
    intro i
    cases h : o i with
    | ok j => simp [retryLoop, h, countAttempts, List.filter]
    | httpError =>
      have := ih (i + 1)
      simp only [retryLoop, h, countAttempts_attempt, countAttempts_sleep]
      omega
    | badGzipFile =>
      have := ih (i + 1)
      simp only [retryLoop, h, countAttempts_attempt, countAttempts_sleep]
      omega
    | raised e => simp [retryLoop, h, countAttempts, List.filter]

lemma retryLoop_all_fail {J : Type} (o : Nat → FetchOutcome J) :
    ∀ r i, (∀ k, k < r → isRetryFailure (o (i + k))) →
      retryLoop o i r
        = (.error (.valueError "Could not fetch journal"), failTrace i r) := by
  intro r
  induction r with
  | zero => intro i _; simp [retryLoop, failTrace]
  | succ r ih =>
    intro i h
    have h0 : isRetryFailure (o i) := by simpa using h 0 (by omega)
    have hrest : ∀ k, k < r → isRetryFailure (o (i + 1 + k)) := by
      intro k hk
      have := h (k + 1) (by omega)
      have e : i + (k + 1) = i + 1 + k := by omega
      rwa [e] at this
    cases h0 with
    | inl he => simp [retryLoop, he, ih (i + 1) hrest, failTrace]
    | inr he => simp [retryLoop, he, ih (i + 1) hrest, failTrace]

lemma retryLoop_first_success {J : Type} (o : Nat → FetchOutcome J) :
    ∀ m r i j, m < r → o (i + m) = .ok j →
      (∀ k, k < m → isRetryFailure (o (i + k))) →
      retryLoop o i r = (.ok j, failTrace i m ++ [.attempt (i + m)]) := by
  intro m
  induction m with
  | zero =>
    intro r i j hm hok _
    cases r with
    | zero => omega
    | succ r =>
      simp only [Nat.add_zero] at hok
      simp [retryLoop, hok, failTrace]
  | succ m ih =>
    intro r i j hm hok hfail
    cases r with
    | zero => omega
    | succ r =>
      have h0 : isRetryFailure (o i) := by simpa using hfail 0 (by omega)
      have hok' : o (i + 1 + m) = .ok j := by
        have e : i + (m + 1) = i + 1 + m := by omega
        rwa [e] at hok
      have hfail' : ∀ k, k < m → isRetryFailure (o (i + 1 + k)) := by
        intro k hk
        have := hfail (k + 1) (by omega)
        have e : i + (k + 1) = i + 1 + k := by omega
        rwa [e] at this
      have step := ih r (i + 1) j (by omega) hok' hfail'
      have e2 : i + 1 + m = i + (m + 1) := by omega
      cases h0 with
      | inl he => simp [retryLoop, he, step, failTrace, e2]
      | inr he => simp [retryLoop, he, step, failTrace, e2]

/-- Claim C8: the journal fetch wrapper makes at most 10 attempts; when
the first `i` attempts fail with a caught error (HTTP error or bad gzip
data) and attempt `i` succeeds, it returns that journal after sleeping
60 seconds between consecutive attempts; when all 10 attempts fail with
caught errors it raises `ValueError` for that archive, having slept
after each failure. -/
theorem journal_retry_policy (outcomes : Nat → FetchOutcome WadJournal) :
    countAttempts (getWadJournalModel outcomes).2 ≤ 10
    ∧ (∀ i j, i < 10 → outcomes i = .ok j →
        (∀ k, k < i → isRetryFailure (outcomes k)) →
        getWadJournalModel outcomes = (.ok j, failTrace 0 i ++ [.attempt i]))
    ∧ ((∀ k, k < 10 → isRetryFailure (outcomes k)) →
        getWadJournalModel outcomes
          = (.error (.valueError "Could not fetch journal"), failTrace 0 10)) := by
  refine ⟨retryLoop_attempts_le outcomes 10 0, ?_, ?_⟩
  · intro i j hi hok hfail
    have := retryLoop_first_success outcomes i 10 0 j hi (by simpa using hok)
      (by simpa using hfail)
    simpa [getWadJournalModel, journalRetries] using this
  · intro hfail
    have := retryLoop_all_fail outcomes 10 0 (by simpa using hfail)
    simpa [getWadJournalModel, journalRetries] using this

/-- Witness for C8: first attempt fails with an HTTP error, the second
succeeds; the wrapper sleeps 60 seconds in between and returns the
journal of the second attempt. -/
theorem journal_retry_policy_witness :
    getWadJournalModel
        (fun k => if k = 0 then FetchOutcome.httpError
          else .ok ([("a.txt", (0, 8, 4, 4, false))] : WadJournal))
      = (.ok ([("a.txt", (0, 8, 4, 4, false))] : WadJournal),
         [.attempt 0, .sleep 60, .attempt 1]) := by
  have h := (journal_retry_policy
      (fun k => if k = 0 then FetchOutcome.httpError
        else .ok ([("a.txt", (0, 8, 4, 4, false))] : WadJournal))).2.1
    1 [("a.txt", (0, 8, 4, 4, false))] (by omega) rfl
    (fun k hk => by
      have hk0 : k = 0 := by omega
      subst hk0
      exact Or.inl rfl)
  simpa [failTrace, journalSleepTime] using h

/-! ### Evaluation lemmas for the manifest parser (C6) -/

lemma readData_eq (l : List Nat) (off k : Nat) (h : off + k ≤ l.length) :
    TypedBytesReader.readData ⟨l, (off : Int)⟩ (k : Int)
      = .ok ((l.drop off).take k, ⟨l, ((off + k : Nat) : Int)⟩) := by
  unfold TypedBytesReader.readData
  rw [if_neg (by push_cast; omega)]
  have e0 : ((off : Int) + (k : Int)) = ((off + k : Nat) : Int) := by push_cast; ring
  rw [e0]
  have e1 : pySlice l off ((off + k : Nat) : Int) = (l.drop off).take k := by
    simp only [pySlice, pyBound]
    rw [if_neg (by omega), if_neg (by omega)]
    have e2 : ((off : Int)).toNat = off := by omega
    have e3 : (((off + k : Nat) : Int)).toNat = off + k := by omega
    rw [e2, e3]
    have e4 : min off l.length = off := by omega
    have e5 : min (off + k) l.length = off + k := by omega
    rw [e4, e5]
    congr 1
    omega
  rw [e1]

lemma readUnsigned_eq (l : List Nat) (off k : Nat) (h : off + k ≤ l.length) :
    readUnsigned ⟨l, (off : Int)⟩ k
      = .ok (leNat ((l.drop off).take k), ⟨l, ((off + k : Nat) : Int)⟩) := by
  unfold readUnsigned
  rw [readData_eq l off k h]
  have hlen : ((l.drop off).take k).length = k := by
    simp only [List.length_take, List.length_drop]
    omega
  change (if ((l.drop off).take k).length = k
      then Except.ok (leNat ((l.drop off).take k),
        (⟨l, ((off + k : Nat) : Int)⟩ : TypedBytesReader))
      else Except.error PyErr.structError) = _
  rw [if_pos hlen]

lemma exceptBind_ok {α β : Type} (a : α) (f : α → Except PyErr β) :
    Bind.bind (Except.ok a) f = f a := rfl

lemma exceptBind_error {α β : Type} (e : PyErr) (f : α → Except PyErr β) :
    Bind.bind (Except.error e) f = Except.error e := rfl

lemma consumeLoop_marker_error (fuel k : Nat) (r : TypedBytesReader)
    (records : List (String × List DmlRecord))
    (cur : Option (String × List (String × Nat)))
    (m : Nat) (r₂ : TypedBytesReader)
    (hread : readU8 r = .ok (m, r₂)) (hm : m ≠ 2) :
    consumeLoop (fuel + 1) (k + 1) r records cur
      = .error (.runtimeError "Got a structure marker instead of 2") := by
  simp only [consumeLoop, readStructure, hread, exceptBind_ok]
  rw [if_pos hm]
  simp only [exceptBind_error]

lemma consumeLoop_value_without_template (fuel k : Nat) (r : TypedBytesReader)
    (records : List (String × List DmlRecord))
    (payload r₂ : TypedBytesReader)
    (hrs : readStructure r = .ok (2, payload, r₂)) :
    consumeLoop (fuel + 1) (k + 1) r records none
      = .error (.runtimeError "No record template to use for record") := by
  simp only [consumeLoop, hrs, exceptBind_ok]
  simp

lemma parse_marker_error (c0 c1 c2 c3 m : Nat) (rest : List Nat) (hm : m ≠ 2) :
    parseRecordsFromBytes (c0 :: c1 :: c2 :: c3 :: m :: rest)
      = .error (.runtimeError "Got a structure marker instead of 2") := by
  have h32 : readU32 (TypedBytesReader.mk (c0 :: c1 :: c2 :: c3 :: m :: rest) 0)
      = .ok (leNat [c0, c1, c2, c3],
          TypedBytesReader.mk (c0 :: c1 :: c2 :: c3 :: m :: rest) 4) := by
    simpa [readU32] using
      readUnsigned_eq (c0 :: c1 :: c2 :: c3 :: m :: rest) 0 4
        (by simp only [List.length_cons]; omega)
  have h8 : readU8 (TypedBytesReader.mk (c0 :: c1 :: c2 :: c3 :: m :: rest) 4)
      = .ok (m, TypedBytesReader.mk (c0 :: c1 :: c2 :: c3 :: m :: rest) 5) := by
    simpa [readU8, leNat] using
      readUnsigned_eq (c0 :: c1 :: c2 :: c3 :: m :: rest) 4 1
        (by simp only [List.length_cons]; omega)
  have heof : (TypedBytesReader.mk (c0 :: c1 :: c2 :: c3 :: m :: rest) 0).isEof
      = false := by
    simp only [TypedBytesReader.isEof, TypedBytesReader.size, List.length_cons,
      decide_eq_false_iff_not]
    push_cast
    omega
  unfold parseRecordsFromBytes consumeData
  simp only [consumeLoop, heof, Bool.false_eq_true, if_false, h32, exceptBind_ok]
  simp only [readStructure, readU8] at h8 ⊢
  simp only [h8, exceptBind_ok]
  rw [if_pos hm]
  simp only [exceptBind_error]

lemma template_forty_error (tidx b : Nat) (rest : List Nat) (hb : b ≠ 40) :
    parseRecordTemplate ⟨1 :: 0 :: 65 :: tidx :: b :: rest, 0⟩
      = .error (.runtimeError "Forty check was not forty") := by
  have h16 : readU16 (TypedBytesReader.mk (1 :: 0 :: 65 :: tidx :: b :: rest) 0)
      = .ok (1, TypedBytesReader.mk (1 :: 0 :: 65 :: tidx :: b :: rest) 2) := by
    simpa [readU16, leNat] using
      readUnsigned_eq (1 :: 0 :: 65 :: tidx :: b :: rest) 0 2
        (by simp only [List.length_cons]; omega)
  have hdata : (TypedBytesReader.mk (1 :: 0 :: 65 :: tidx :: b :: rest) 2).readData
        ((1 : Nat) : Int)
      = .ok ([65], TypedBytesReader.mk (1 :: 0 :: 65 :: tidx :: b :: rest) 3) := by
    simpa using
      readData_eq (1 :: 0 :: 65 :: tidx :: b :: rest) 2 1
        (by simp only [List.length_cons]; omega)
  have h8a : readU8 (TypedBytesReader.mk (1 :: 0 :: 65 :: tidx :: b :: rest) 3)
      = .ok (tidx, TypedBytesReader.mk (1 :: 0 :: 65 :: tidx :: b :: rest) 4) := by
    simpa [readU8, leNat] using
      readUnsigned_eq (1 :: 0 :: 65 :: tidx :: b :: rest) 3 1
        (by simp only [List.length_cons]; omega)
  have h8b : readU8 (TypedBytesReader.mk (1 :: 0 :: 65 :: tidx :: b :: rest) 4)
      = .ok (b, TypedBytesReader.mk (1 :: 0 :: 65 :: tidx :: b :: rest) 5) := by
    simpa [readU8, leNat] using
      readUnsigned_eq (1 :: 0 :: 65 :: tidx :: b :: rest) 4 1
        (by simp only [List.length_cons]; omega)
  have heof : (TypedBytesReader.mk (1 :: 0 :: 65 :: tidx :: b :: rest) 0).isEof
      = false := by
    simp only [TypedBytesReader.isEof, TypedBytesReader.size, List.length_cons,
      decide_eq_false_iff_not]
    push_cast
    omega
  unfold parseRecordTemplate
  simp only [parseRecordTemplateLoop, heof, Bool.false_eq_true, if_false, readStr,
    h16, exceptBind_ok, hdata]
  simp [show utf8Decode [65] = some "A" from rfl, exceptBind_ok, h8a, h8b, hb]

lemma value_before_template_error (c0 c1 c2 c3 : Nat) (rest : List Nat) :
    parseRecordsFromBytes (c0 :: c1 :: c2 :: c3 :: 2 :: 2 :: 4 :: 0 :: rest)
      = .error (.runtimeError "No record template to use for record") := by
  have h32 : readU32 (TypedBytesReader.mk (c0 :: c1 :: c2 :: c3 :: 2 :: 2 :: 4 :: 0 :: rest) 0)
      = .ok (leNat [c0, c1, c2, c3],
          TypedBytesReader.mk (c0 :: c1 :: c2 :: c3 :: 2 :: 2 :: 4 :: 0 :: rest) 4) := by
    simpa [readU32] using
      readUnsigned_eq (c0 :: c1 :: c2 :: c3 :: 2 :: 2 :: 4 :: 0 :: rest) 0 4
        (by simp only [List.length_cons]; omega)
  have h8a : readU8 (TypedBytesReader.mk (c0 :: c1 :: c2 :: c3 :: 2 :: 2 :: 4 :: 0 :: rest) 4)
      = .ok (2, TypedBytesReader.mk (c0 :: c1 :: c2 :: c3 :: 2 :: 2 :: 4 :: 0 :: rest) 5) := by
    simpa [readU8, leNat] using
      readUnsigned_eq (c0 :: c1 :: c2 :: c3 :: 2 :: 2 :: 4 :: 0 :: rest) 4 1
        (by simp only [List.length_cons]; omega)
  have h8b : readU8 (TypedBytesReader.mk (c0 :: c1 :: c2 :: c3 :: 2 :: 2 :: 4 :: 0 :: rest) 5)
      = .ok (2, TypedBytesReader.mk (c0 :: c1 :: c2 :: c3 :: 2 :: 2 :: 4 :: 0 :: rest) 6) := by
    simpa [readU8, leNat] using
      readUnsigned_eq (c0 :: c1 :: c2 :: c3 :: 2 :: 2 :: 4 :: 0 :: rest) 5 1
        (by simp only [List.length_cons]; omega)
  have h16 : readU16 (TypedBytesReader.mk (c0 :: c1 :: c2 :: c3 :: 2 :: 2 :: 4 :: 0 :: rest) 6)
      = .ok (4, TypedBytesReader.mk (c0 :: c1 :: c2 :: c3 :: 2 :: 2 :: 4 :: 0 :: rest) 8) := by
    simpa [readU16, leNat] using
      readUnsigned_eq (c0 :: c1 :: c2 :: c3 :: 2 :: 2 :: 4 :: 0 :: rest) 6 2
        (by simp only [List.length_cons]; omega)
  have hdata : (TypedBytesReader.mk (c0 :: c1 :: c2 :: c3 :: 2 :: 2 :: 4 :: 0 :: rest) 8).readData
        (((4 : Nat) : Int) - 4)
      = .ok ([], TypedBytesReader.mk (c0 :: c1 :: c2 :: c3 :: 2 :: 2 :: 4 :: 0 :: rest) 8) := by
    rw [show (((4 : Nat) : Int) - 4) = ((0 : Nat) : Int) by norm_num]
    simpa using
      readData_eq (c0 :: c1 :: c2 :: c3 :: 2 :: 2 :: 4 :: 0 :: rest) 8 0
        (by simp only [List.length_cons]; omega)
  have hrs : readStructure (TypedBytesReader.mk (c0 :: c1 :: c2 :: c3 :: 2 :: 2 :: 4 :: 0 :: rest) 4)
      = .ok (2, ⟨[], 0⟩,
          TypedBytesReader.mk (c0 :: c1 :: c2 :: c3 :: 2 :: 2 :: 4 :: 0 :: rest) 8) := by
    simp only [readStructure, readU8, readU16] at h8a h8b h16 ⊢
    simp only [readStructure, h8a, exceptBind_ok]
    rw [if_neg (by decide)]
    simp only [h8b, exceptBind_ok, h16, hdata]
  have heof : (TypedBytesReader.mk (c0 :: c1 :: c2 :: c3 :: 2 :: 2 :: 4 :: 0 :: rest) 0).isEof
      = false := by
    simp only [TypedBytesReader.isEof, TypedBytesReader.size, List.length_cons,
      decide_eq_false_iff_not]
    push_cast
    omega
  unfold parseRecordsFromBytes consumeData
  simp only [consumeLoop, heof, Bool.false_eq_true, if_false, h32, exceptBind_ok]
  simp only [hrs, exceptBind_ok]
  simp

lemma readStructure_payload (ty s0 s1 : Nat) (payload : List Nat)
    (hsz : 4 ≤ s0 + 256 * s1) (hlen : s0 + 256 * s1 ≤ 4 + payload.length) :
    readStructure ⟨2 :: ty :: s0 :: s1 :: payload, 0⟩
      = .ok (ty, ⟨payload.take (s0 + 256 * s1 - 4), 0⟩,
          ⟨2 :: ty :: s0 :: s1 :: payload,
            ((4 + (s0 + 256 * s1 - 4) : Nat) : Int)⟩) := by
  have h8a : readU8 (TypedBytesReader.mk (2 :: ty :: s0 :: s1 :: payload) 0)
      = .ok (2, TypedBytesReader.mk (2 :: ty :: s0 :: s1 :: payload) 1) := by
    simpa [readU8, leNat] using
      readUnsigned_eq (2 :: ty :: s0 :: s1 :: payload) 0 1
        (by simp only [List.length_cons]; omega)
  have h8b : readU8 (TypedBytesReader.mk (2 :: ty :: s0 :: s1 :: payload) 1)
      = .ok (ty, TypedBytesReader.mk (2 :: ty :: s0 :: s1 :: payload) 2) := by
    simpa [readU8, leNat] using
      readUnsigned_eq (2 :: ty :: s0 :: s1 :: payload) 1 1
        (by simp only [List.length_cons]; omega)
  have h16 : readU16 (TypedBytesReader.mk (2 :: ty :: s0 :: s1 :: payload) 2)
      = .ok (s0 + 256 * s1, TypedBytesReader.mk (2 :: ty :: s0 :: s1 :: payload) 4) := by
    simpa [readU16, leNat] using
      readUnsigned_eq (2 :: ty :: s0 :: s1 :: payload) 2 2
        (by simp only [List.length_cons]; omega)
  have hdata : (TypedBytesReader.mk (2 :: ty :: s0 :: s1 :: payload) 4).readData
        (((s0 + 256 * s1 : Nat) : Int) - 4)
      = .ok (payload.take (s0 + 256 * s1 - 4),
          TypedBytesReader.mk (2 :: ty :: s0 :: s1 :: payload)
            ((4 + (s0 + 256 * s1 - 4) : Nat) : Int)) := by
    rw [show (((s0 + 256 * s1 : Nat) : Int) - 4)
        = ((s0 + 256 * s1 - 4 : Nat) : Int) by omega]
    simpa using
      readData_eq (2 :: ty :: s0 :: s1 :: payload) 4 (s0 + 256 * s1 - 4)
        (by simp only [List.length_cons]; omega)
  simp only [readStructure, h8a, exceptBind_ok]
  rw [if_neg (by decide)]
  simp only [h8b, exceptBind_ok, h16, hdata]

/-- Claim C6: the manifest parser raises an error (producing no
records) for a structure header whose marker byte is not `0x02`, for a
template field whose forty-check byte is not `0x28`, and for a value
structure arriving before any template; otherwise each structure's
payload is read as `payload_len - 4` bytes. -/
theorem manifest_parser_protocol_errors :
    (∀ c0 c1 c2 c3 m rest, m ≠ 2 →
      parseRecordsFromBytes (c0 :: c1 :: c2 :: c3 :: m :: rest)
        = .error (.runtimeError "Got a structure marker instead of 2"))
    ∧ (∀ tidx b rest, b ≠ 40 →
      parseRecordTemplate ⟨1 :: 0 :: 65 :: tidx :: b :: rest, 0⟩
        = .error (.runtimeError "Forty check was not forty"))
    ∧ (∀ c0 c1 c2 c3 rest,
      parseRecordsFromBytes (c0 :: c1 :: c2 :: c3 :: 2 :: 2 :: 4 :: 0 :: rest)
        = .error (.runtimeError "No record template to use for record"))
    ∧ (∀ ty s0 s1 payload, 4 ≤ s0 + 256 * s1 → s0 + 256 * s1 ≤ 4 + payload.length →
      readStructure ⟨2 :: ty :: s0 :: s1 :: payload, 0⟩
        = .ok (ty, ⟨payload.take (s0 + 256 * s1 - 4), 0⟩,
            ⟨2 :: ty :: s0 :: s1 :: payload,
              ((4 + (s0 + 256 * s1 - 4) : Nat) : Int)⟩)) :=
  ⟨fun c0 c1 c2 c3 m rest hm => parse_marker_error c0 c1 c2 c3 m rest hm,
   fun tidx b rest hb => template_forty_error tidx b rest hb,
   fun c0 c1 c2 c3 rest => value_before_template_error c0 c1 c2 c3 rest,
   fun ty s0 s1 payload hsz hlen => readStructure_payload ty s0 s1 payload hsz hlen⟩

/-- Witness for C6: the three errors and the payload-length rule on
concrete buffers. -/
theorem manifest_parser_protocol_errors_witness :
    parseRecordsFromBytes [0, 0, 0, 0, 3, 0, 4, 0]
      = .error (.runtimeError "Got a structure marker instead of 2")
    ∧ parseRecordTemplate ⟨[1, 0, 65, 5, 39], 0⟩
      = .error (.runtimeError "Forty check was not forty")
    ∧ parseRecordsFromBytes [0, 0, 0, 0, 2, 2, 4, 0]
      = .error (.runtimeError "No record template to use for record")
    ∧ readStructure ⟨[2, 1, 9, 0, 1, 0, 65, 5, 40], 0⟩
      = .ok (1, ⟨[1, 0, 65, 5, 40], 0⟩,
          ⟨[2, 1, 9, 0, 1, 0, 65, 5, 40], ((9 : Nat) : Int)⟩) :=
  ⟨manifest_parser_protocol_errors.1 0 0 0 0 3 [0, 4, 0] (by decide),
   manifest_parser_protocol_errors.2.1 5 39 [] (by decide),
   manifest_parser_protocol_errors.2.2.1 0 0 0 0 [],
   manifest_parser_protocol_errors.2.2.2 1 9 0 [1, 0, 65, 5, 40]
     (by norm_num) (by norm_num)⟩

end Wizdiff
